import Mathlib

/-
Verification of the Location Resolution Service of the life_chronicles
repository.  The frontend component (LocationEditor.tsx: performSearch,
handleMarkerDrag) is embedded directly from the source.  The Django backend
service (GeoProvider, LocationResolver, ResultCache, PlaceStore) is declared
and documented in the repository (Location Module README: StoryPlace model,
GeoProvider signatures, calculate_custom_confidence, CACHE_TTL) but its
implementation file is not part of the sources here; those parts are
modelled from the spec, as marked on each definition.
Numbers are modelled as rationals; machine-float rounding is out of scope.
-/

namespace LifeChronicles

/-- Embedding of the PlaceCandidate interface of LocationEditor.tsx and of
the PlaceCandidateSerializer in the Location Module README: one candidate
location returned by a lookup. -/
structure PlaceCandidate where
  label : String
  lat : ℚ
  lon : ℚ
  place_name : String
  city : String
  admin : String
  country : String
  country_code : String
  provider : String
  provider_place_id : String
  confidence : ℚ
deriving Repr, DecidableEq

/-- Embedding of the LocationData interface of LocationEditor.tsx: the
component state for the selected location; optional descriptive fields. -/
structure LocationData where
  lat : ℚ
  lon : ℚ
  place_name : Option String
  city : Option String
  admin : Option String
  country : Option String
  country_code : Option String
deriving Repr, DecidableEq

/-- Source of a saved location, per the StoryPlace model and the spec. -/
inductive Source where
  | search_selection
  | reverse_geocode
  | user_form
  | exif
deriving Repr, DecidableEq

/-- Embedding of the StoryPlace Django model declared in the Location Module
README: the persisted record for one story.  Timestamps are abstract ticks. -/
structure StoryPlace where
  story_id : String
  lat : ℚ
  lon : ℚ
  place_name : String
  city : String
  admin : String
  country : String
  country_code : String
  provider : String
  provider_place_id : String
  confidence : ℚ
  source : Source
  created_at : ℕ
  updated_at : ℕ
deriving Repr, DecidableEq

/-- Address sub-dictionary of a raw Nominatim response, as read by
calculate_custom_confidence: only postcode and house_number are consulted.
A missing key is modelled as the empty string, which is falsy in Python. -/
structure NominatimAddress where
  postcode : String
  house_number : String
deriving Repr, DecidableEq

/-- Raw Nominatim response data handed to the confidence calculation.
The named_poi flag abstracts whether the feature type of the response
indicates a named point-of-interest rather than a generic area; the raw
response carries such a type field, but the scorer below does not read it. -/
structure NominatimData where
  address : NominatimAddress
  named_poi : Bool
deriving Repr, DecidableEq

/-- Embedding of calculate_custom_confidence from the Location Module README
(custom confidence algorithm): start from 0.7, add 0.1 when a postcode is
present, add 0.1 when a house number is present, cap the total at 0.95. -/
def calculate_custom_confidence (data : NominatimData) : ℚ :=
  let base0 : ℚ := 7/10
  let base1 : ℚ := if data.address.postcode ≠ "" then base0 + 1/10 else base0
  let base2 : ℚ := if data.address.house_number ≠ "" then base1 + 1/10 else base1
  min (95/100) base2

/-- Confidence formula as the spec words it (section 4.3): base 0.70, plus
0.10 for a postcode, plus 0.10 for a house number, plus 0.05 for a named
point-of-interest, capped at 0.95.  Stated for comparison with the source
function calculate_custom_confidence. -/
def confidence_per_claim (data : NominatimData) : ℚ :=
  min (95/100)
    (7/10
      + (if data.address.postcode ≠ "" then (1:ℚ)/10 else 0)
      + (if data.address.house_number ≠ "" then (1:ℚ)/10 else 0)
      + (if data.named_poi then (1:ℚ)/20 else 0))

/-- Executable model of JavaScript string trim and of Python strip:
leading and trailing whitespace characters removed. -/
def trimString (s : String) : String :=
  String.mk (((s.data.dropWhile Char.isWhitespace).reverse.dropWhile
    Char.isWhitespace).reverse)

/-- Outcome of the fetch performed by the frontend search: a parsed result
list, a non-ok HTTP response, or a thrown network error. -/
inductive SearchFetch where
  | ok (results : List PlaceCandidate)
  | httpNotOk
  | threw
deriving Repr, DecidableEq

/-- Frontend search component state touched by performSearch. -/
structure SearchUIState where
  searchResults : List PlaceCandidate
  showResults : Bool
  error : Option String
deriving Repr, DecidableEq

/-- Embedding of performSearch from LocationEditor.tsx.  A blank (trimmed
empty) or single-character query clears the results and returns before any
fetch; otherwise the fetch runs, an ok response installs the results, and
any failure clears them and records an error message.  The returned boolean
records whether the network call was performed. -/
def performSearch (query : String) (fetch : SearchFetch) (st : SearchUIState) :
    SearchUIState × Bool :=
  if trimString query = "" ∨ query.length < 2 then
    ({ st with searchResults := [], showResults := false }, false)
  else
    match fetch with
    | SearchFetch.ok results =>
        ({ st with error := none, searchResults := results,
                   showResults := results.length > 0 }, true)
    | SearchFetch.httpNotOk =>
        ({ st with error := some "Search failed. Please try again.",
                   searchResults := [], showResults := false }, true)
    | SearchFetch.threw =>
        ({ st with error := some "Search failed. Please try again.",
                   searchResults := [], showResults := false }, true)

/-- Outcome of the fetch performed by the frontend reverse-geocode handler:
an ok response carrying a candidate, a non-ok HTTP response, or a thrown
network error. -/
inductive ReverseFetch where
  | ok (result : PlaceCandidate)
  | httpNotOk
  | threw
deriving Repr, DecidableEq

/-- Embedding of handleMarkerDrag from LocationEditor.tsx.  On an ok
response the selected location is replaced by the response fields; on a
non-ok response nothing happens (the ok-branch is skipped and no exception
is raised); on a thrown error the catch block keeps the previous location
but overwrites its coordinates with the dragged ones (or creates a bare
coordinate pair when there was no previous location). -/
def handleMarkerDrag (lat lon : ℚ) (fetch : ReverseFetch)
    (prev : Option LocationData) : Option LocationData :=
  match fetch with
  | ReverseFetch.ok r =>
      some { lat := r.lat, lon := r.lon, place_name := some r.place_name,
             city := some r.city, admin := some r.admin,
             country := some r.country, country_code := some r.country_code }
  | ReverseFetch.httpNotOk => prev
  | ReverseFetch.threw =>
      match prev with
      | some p => some { p with lat := lat, lon := lon }
      | none => some { lat := lat, lon := lon, place_name := none,
                       city := none, admin := none, country := none,
                       country_code := none }

/-- Error taxonomy of the spec (section 7). -/
inductive GeoError where
  | InvalidInput
  | RateLimitTimeout
  | ProviderUnavailable
deriving Repr, DecidableEq

/-- Outcome of an upstream provider call: a successful payload or a
ProviderUnavailable-style failure (network or parse error). -/
inductive ProviderResult (α : Type) where
  | success (v : α)
  | unavailable
deriving Repr, DecidableEq

/-- Raw place payload returned by the Nominatim provider for one place:
descriptive fields plus the data consulted by the confidence calculation. -/
structure RawPlace where
  lat : ℚ
  lon : ℚ
  display_name : String
  name : String
  city : String
  admin : String
  country : String
  country_code : String
  place_id : String
  data : NominatimData
deriving Repr, DecidableEq

/-- Coordinate bounds check of the Location Module README input validation:
lat in -90..90 and lon in -180..180. -/
def valid_coords (lat lon : ℚ) : Bool :=
  decide (-90 ≤ lat) && decide (lat ≤ 90) && decide (-180 ≤ lon) && decide (lon ≤ 180)

/-- Conversion of a raw provider place into a PlaceCandidate, with the
confidence computed by calculate_custom_confidence over the raw data. -/
def candidateOfRaw (r : RawPlace) : PlaceCandidate :=
  { label := r.display_name, lat := r.lat, lon := r.lon,
    place_name := r.name, city := r.city, admin := r.admin,
    country := r.country, country_code := r.country_code,
    provider := "nominatim", provider_place_id := r.place_id,
    confidence := calculate_custom_confidence r.data }

/-- Modelled from the spec: the degraded PlaceCandidate that the resolver
returns on provider failure of a reverse lookup (section 4.5) — the raw
coordinates with confidence 0.0 and empty descriptive fields. -/
def degradedCandidate (lat lon : ℚ) : PlaceCandidate :=
  { label := "", lat := lat, lon := lon, place_name := "", city := "",
    admin := "", country := "", country_code := "", provider := "",
    provider_place_id := "", confidence := 0 }

/-- Modelled from the spec: the core of LocationResolver.Reverse (section
4.5), whose backend implementation file is not among the sources.  Given
the provider outcome for in-bounds coordinates: a found place becomes a
scored candidate, no upstream data becomes none, and a provider failure
degrades to the zero-confidence candidate at the queried coordinates
instead of propagating the error. -/
def Reverse (lat lon : ℚ) (pr : ProviderResult (Option RawPlace)) :
    Option PlaceCandidate :=
  match pr with
  | ProviderResult.success (some r) => some (candidateOfRaw r)
  | ProviderResult.success none => none
  | ProviderResult.unavailable => some (degradedCandidate lat lon)

/-- Modelled from the spec: the reverse entry point with input validation
(sections 4.1 and 7).  Out-of-range coordinates fail with InvalidInput
before any network call; otherwise the provider is consulted.  The boolean
records whether a network call was performed. -/
def reverseOp (lat lon : ℚ) (pr : ProviderResult (Option RawPlace)) :
    Except GeoError (Option PlaceCandidate) × Bool :=
  if valid_coords lat lon then
    (Except.ok (Reverse lat lon pr), true)
  else
    (Except.error GeoError.InvalidInput, false)

/-- Modelled from the spec: the search entry point with input validation
(section 4.1), whose backend implementation file is not among the sources.
A trimmed-empty query returns an empty list without a network call; a
trimmed query longer than 120 characters fails with InvalidInput without a
network call; otherwise the provider is consulted and its failure surfaces
as ProviderUnavailable.  The boolean records whether a network call was
performed. -/
def searchOp (query : String) (pr : ProviderResult (List RawPlace)) :
    Except GeoError (List PlaceCandidate) × Bool :=
  let t := trimString query
  if t.length = 0 then
    (Except.ok [], false)
  else if t.length ≤ 120 then
    match pr with
    | ProviderResult.success rs => (Except.ok (rs.map candidateOfRaw), true)
    | ProviderResult.unavailable => (Except.error GeoError.ProviderUnavailable, true)
  else
    (Except.error GeoError.InvalidInput, false)

/-- Input accepted by Save: a selected candidate or manually edited fields,
with the provenance and, for candidate sources, the candidate confidence.
Absent descriptive fields are the empty string, as in the Django model. -/
structure SaveInput where
  lat : ℚ
  lon : ℚ
  place_name : String
  city : String
  admin : String
  country : String
  country_code : String
  provider : String
  provider_place_id : String
  source : Source
  cand_confidence : ℚ
deriving Repr, DecidableEq

/-- Modelled from the spec: base confidence of a save before
cross-validation (section 4.3) — fixed 0.90 for user_form edits, the
candidate confidence otherwise. -/
def baseConfidence (inp : SaveInput) : ℚ :=
  match inp.source with
  | Source.user_form => 9/10
  | _ => inp.cand_confidence

/-- Modelled from the spec: the cross-validation penalty of Save (section
4.5).  revCC is the country code obtained by the reverse lookup at the
submitted coordinates (none when the lookup was not performed or failed).
When a city or country was supplied and the looked-up country code differs
from the supplied one, the fixed penalty 0.2 applies; otherwise 0. -/
def crossPenalty (inp : SaveInput) (revCC : Option String) : ℚ :=
  match revCC with
  | some cc =>
      if (inp.city ≠ "" ∨ inp.country ≠ "") ∧ cc ≠ inp.country_code then 2/10
      else 0
  | none => 0

/-- Modelled from the spec: the StoryPlace record written by Save (section
4.5) — the user-supplied field values kept authoritative, confidence equal
to the base confidence minus the cross-validation penalty. -/
def saveRecord (sid : String) (inp : SaveInput) (revCC : Option String)
    (now : ℕ) : StoryPlace :=
  { story_id := sid, lat := inp.lat, lon := inp.lon,
    place_name := inp.place_name, city := inp.city, admin := inp.admin,
    country := inp.country, country_code := inp.country_code,
    provider := inp.provider, provider_place_id := inp.provider_place_id,
    confidence := baseConfidence inp - crossPenalty inp revCC,
    source := inp.source, created_at := now, updated_at := now }

/-- Modelled from the spec: the PlaceStore state, one record per storyId. -/
def PlaceStore : Type := String → Option StoryPlace

/-- Modelled from the spec: PlaceStore.Get (section 4.6). -/
def Get (store : PlaceStore) (sid : String) : Option StoryPlace :=
  store sid

/-- Modelled from the spec: PlaceStore.Put (section 4.6) — a full replace
of the record for sid, except that createdAt of an existing record is
preserved (the record lifecycle of section 3). -/
def Put (store : PlaceStore) (sid : String) (r : StoryPlace) : PlaceStore :=
  fun k =>
    if k = sid then
      some (match store sid with
            | some old => { r with created_at := old.created_at }
            | none => r)
    else store k

/-- Modelled from the spec: LocationResolver.Save writing through the
PlaceStore (section 4.5). -/
def SaveOp (store : PlaceStore) (sid : String) (inp : SaveInput)
    (revCC : Option String) (now : ℕ) : PlaceStore :=
  Put store sid (saveRecord sid inp revCC now)

/-- Modelled from the spec: one ResultCache entry with its insertion time. -/
structure CacheEntry (α : Type) where
  key : String
  value : α
  insertedAt : ℕ
deriving Repr, DecidableEq

/-- Default cache time-to-live in seconds, per the Location Module README
configuration table: 86400, i.e. 24 hours. -/
def CACHE_TTL : ℕ := 86400

/-- Modelled from the spec: ResultCache insertion — the new entry shadows
any earlier entry for the same key. -/
def cachePut {α : Type} (entries : List (CacheEntry α)) (key : String)
    (v : α) (now : ℕ) : List (CacheEntry α) :=
  { key := key, value := v, insertedAt := now } :: entries

/-- Modelled from the spec: ResultCache lookup at the current time — an
entry is returned only while strictly younger than the TTL; once the TTL
has elapsed it is treated as absent. -/
def cacheGet {α : Type} (entries : List (CacheEntry α)) (key : String)
    (now ttl : ℕ) : Option α :=
  match entries.find? (fun e => e.key == key) with
  | some e => if now < e.insertedAt + ttl then some e.value else none
  | none => none

/-- Example save input for concrete evaluations: a search selection with a
supplied city and country. -/
def exampleSaveInput : SaveInput :=
  { lat := 4885/100, lon := 235/100, place_name := "", city := "Paris",
    admin := "", country := "France", country_code := "FR",
    provider := "nominatim", provider_place_id := "",
    source := Source.search_selection, cand_confidence := 9/10 }

/-- Example save input for concrete evaluations: a manual form edit. -/
def exampleUserFormInput : SaveInput :=
  { lat := 388951/10000, lon := -770540/10000, place_name := "",
    city := "Washington", admin := "", country := "United States",
    country_code := "US", provider := "nominatim", provider_place_id := "",
    source := Source.user_form, cand_confidence := 0 }

/-- Example stored record for concrete evaluations. -/
def examplePlaceRec : StoryPlace := saveRecord ("s1") exampleSaveInput none 3

/-- Second example record, used to overwrite the first. -/
def examplePlaceRec2 : StoryPlace := saveRecord ("s1") exampleUserFormInput none 9

/-- Example store holding one record under the key s1. -/
def exampleStore : PlaceStore :=
  fun k => if k = "s1" then some examplePlaceRec else none

/-- Store with no records. -/
def emptyStore : PlaceStore := fun _ => none

/-- A query of 121 identical characters, one over the search length limit. -/
def exampleLongQuery : String := String.mk (List.replicate 121 'a')

/-- Bounds of the source confidence calculation: the result always lies
between 0.70 and 0.95. -/
theorem calc_conf_bounds (d : NominatimData) :
    7/10 ≤ calculate_custom_confidence d ∧ calculate_custom_confidence d ≤ 95/100 := by
  simp only [calculate_custom_confidence]
  split_ifs <;> constructor <;> norm_num [min_def]

/-- C1: for every in-bounds coordinate pair, the reverse operation wraps
the resolver result in a success (never propagating the provider error),
every returned candidate has confidence between 0 and 1, and on provider
failure the result is the degraded candidate keeping the queried
coordinates, with confidence 0 and empty descriptive fields. -/
theorem reverse_inbounds_safe (lat lon : ℚ)
    (pr : ProviderResult (Option RawPlace))
    (h : valid_coords lat lon = true) :
    (reverseOp lat lon pr).1 = Except.ok (Reverse lat lon pr)
    ∧ (∀ c, Reverse lat lon pr = some c → 0 ≤ c.confidence ∧ c.confidence ≤ 1)
    ∧ Reverse lat lon ProviderResult.unavailable = some (degradedCandidate lat lon)
    ∧ (degradedCandidate lat lon).lat = lat
    ∧ (degradedCandidate lat lon).lon = lon
    ∧ (degradedCandidate lat lon).confidence = 0
    ∧ (degradedCandidate lat lon).label = ""
    ∧ (degradedCandidate lat lon).place_name = ""
    ∧ (degradedCandidate lat lon).city = ""
    ∧ (degradedCandidate lat lon).admin = ""
    ∧ (degradedCandidate lat lon).country = ""
    ∧ (degradedCandidate lat lon).country_code = "" := by
  refine ⟨by simp [reverseOp, h], ?_, rfl, rfl, rfl, rfl, rfl, rfl, rfl, rfl, rfl, rfl⟩
  intro c hc
  cases pr with
  | success o =>
      cases o with
      | some r =>
          have hcr : c = candidateOfRaw r := by
            simpa [Reverse] using hc.symm
          subst hcr
          have hb := calc_conf_bounds r.data
          constructor
          · have : (0:ℚ) ≤ 7/10 := by norm_num
            exact this.trans hb.1
          · have : (95:ℚ)/100 ≤ 1 := by norm_num
            exact hb.2.trans this
      | none => simp [Reverse] at hc
  | unavailable =>
      have hcr : c = degradedCandidate lat lon := by
        simpa [Reverse] using hc.symm
      subst hcr
      exact ⟨le_rfl, by norm_num [degradedCandidate]⟩

/-- Witness for C1 at the origin with a failing provider. -/
theorem reverse_inbounds_safe_w :
    Reverse 0 0 ProviderResult.unavailable = some (degradedCandidate 0 0)
    ∧ (degradedCandidate 0 0).confidence = 0 :=
  ⟨(reverse_inbounds_safe 0 0 ProviderResult.unavailable (by decide)).2.2.1,
   (reverse_inbounds_safe 0 0 ProviderResult.unavailable (by decide)).2.2.2.2.2.1⟩

/-- C2: a save whose reverse lookup returns a mismatching country code
still succeeds, stores the user-supplied field values exactly, and records
a confidence lower by exactly 0.2 than the same save with a matching
country code. -/
theorem save_mismatch_penalty (store : PlaceStore) (sid : String)
    (inp : SaveInput) (ccM ccX : String) (now : ℕ)
    (hcountry : inp.country ≠ "")
    (hM : ccM = inp.country_code) (hX : ccX ≠ inp.country_code) :
    (saveRecord sid inp (some ccX) now).lat = inp.lat
    ∧ (saveRecord sid inp (some ccX) now).lon = inp.lon
    ∧ (saveRecord sid inp (some ccX) now).city = inp.city
    ∧ (saveRecord sid inp (some ccX) now).country = inp.country
    ∧ (saveRecord sid inp (some ccX) now).country_code = inp.country_code
    ∧ (saveRecord sid inp (some ccX) now).confidence
        = (saveRecord sid inp (some ccM) now).confidence - 2/10
    ∧ (∃ r, Get (SaveOp store sid inp (some ccX) now) sid = some r
          ∧ r.lat = inp.lat ∧ r.lon = inp.lon ∧ r.city = inp.city
          ∧ r.country = inp.country
          ∧ r.confidence
              = (saveRecord sid inp (some ccM) now).confidence - 2/10) := by
  have hpenX : crossPenalty inp (some ccX) = 2/10 := by
    simp only [crossPenalty]
    rw [if_pos ⟨Or.inr hcountry, hX⟩]
  have hpenM : crossPenalty inp (some ccM) = 0 := by
    simp only [crossPenalty]
    rw [if_neg (fun hcon => hcon.2 hM)]
  have hconf : (saveRecord sid inp (some ccX) now).confidence
      = (saveRecord sid inp (some ccM) now).confidence - 2/10 := by
    simp [saveRecord, hpenX, hpenM]
  refine ⟨rfl, rfl, rfl, rfl, rfl, hconf, ?_⟩
  cases hstore : store sid with
  | none =>
      exact ⟨saveRecord sid inp (some ccX) now,
        by simp [Get, SaveOp, Put, hstore], rfl, rfl, rfl, rfl, hconf⟩
  | some old =>
      exact ⟨{ saveRecord sid inp (some ccX) now with created_at := old.created_at },
        by simp [Get, SaveOp, Put, hstore], rfl, rfl, rfl, rfl, hconf⟩

/-- Witness for C2: saving Paris coordinates with country France while the
reverse lookup reports the country code DE. -/
theorem save_mismatch_penalty_w :
    (saveRecord ("s1") exampleSaveInput (some "DE") 0).country
      = exampleSaveInput.country
    ∧ (saveRecord ("s1") exampleSaveInput (some "DE") 0).confidence
      = (saveRecord ("s1") exampleSaveInput (some "FR") 0).confidence - 2/10 :=
  ⟨(save_mismatch_penalty emptyStore ("s1") exampleSaveInput ("FR") ("DE") 0
      (by decide) rfl (by decide)).2.2.2.1,
   (save_mismatch_penalty emptyStore ("s1") exampleSaveInput ("FR") ("DE") 0
      (by decide) rfl (by decide)).2.2.2.2.2.1⟩

/-- C3 counterexample: the source confidence calculation grants no bonus
for a named point-of-interest — on data with a point-of-interest feature
type and neither postcode nor house number it yields 0.70, while the
claimed formula yields 0.75. -/
theorem calc_conf_poi_counterexample :
    calculate_custom_confidence
        { address := { postcode := "", house_number := "" }, named_poi := true }
      = 7/10
    ∧ confidence_per_claim
        { address := { postcode := "", house_number := "" }, named_poi := true }
      = 3/4
    ∧ calculate_custom_confidence
        { address := { postcode := "", house_number := "" }, named_poi := true }
      ≠ confidence_per_claim
        { address := { postcode := "", house_number := "" }, named_poi := true } := by
  refine ⟨?_, ?_, ?_⟩ <;> norm_num [calculate_custom_confidence, confidence_per_claim]

/-- C3 (amended): the confidence calculation is exactly base 0.70, plus
0.10 when a postal code is present, plus 0.10 when a house number is
present, capped at 0.95 (no point-of-interest bonus); the result is never
negative and never exceeds 0.95. -/
theorem calc_conf_formula (d : NominatimData) :
    calculate_custom_confidence d
      = min (95/100)
          (7/10 + (if d.address.postcode ≠ "" then (1:ℚ)/10 else 0)
                + (if d.address.house_number ≠ "" then (1:ℚ)/10 else 0))
    ∧ 0 ≤ calculate_custom_confidence d
    ∧ calculate_custom_confidence d ≤ 95/100 := by
  refine ⟨?_, ?_, (calc_conf_bounds d).2⟩
  · simp only [calculate_custom_confidence]
    split_ifs <;> norm_num
  · have h := (calc_conf_bounds d).1
    linarith

/-- C4: a query that trims to the empty string yields an empty result list
and no network call, both in the frontend performSearch and in the
modelled backend search operation. -/
theorem blank_query_no_fetch (q : String) (f : SearchFetch)
    (st : SearchUIState) (pr : ProviderResult (List RawPlace))
    (h : trimString q = "") :
    (performSearch q f st).1.searchResults = []
    ∧ (performSearch q f st).2 = false
    ∧ (searchOp q pr).1 = Except.ok []
    ∧ (searchOp q pr).2 = false := by
  refine ⟨?_, ?_, ?_, ?_⟩ <;> simp [performSearch, searchOp, h]

/-- Witness for C4 on a whitespace-only query. -/
theorem blank_query_no_fetch_w :
    (performSearch ("   ") SearchFetch.threw ⟨[], false, none⟩).1.searchResults = []
    ∧ (performSearch ("   ") SearchFetch.threw ⟨[], false, none⟩).2 = false
    ∧ (searchOp ("   ") ProviderResult.unavailable).1 = Except.ok []
    ∧ (searchOp ("   ") ProviderResult.unavailable).2 = false :=
  blank_query_no_fetch ("   ") SearchFetch.threw ⟨[], false, none⟩
    ProviderResult.unavailable (by decide)

/-- C5: a query whose trimmed length is between 1 and 120 is accepted and
the lookup is issued; a trimmed query longer than 120 characters fails
with InvalidInput and no network call. -/
theorem search_length_validation (q : String)
    (pr : ProviderResult (List RawPlace)) :
    (1 ≤ (trimString q).length → (trimString q).length ≤ 120 →
       (searchOp q pr).2 = true
       ∧ (searchOp q pr).1 ≠ Except.error GeoError.InvalidInput)
    ∧ (120 < (trimString q).length →
       (searchOp q pr).1 = Except.error GeoError.InvalidInput
       ∧ (searchOp q pr).2 = false) := by
  constructor
  · intro h1 h2
    have hne : ¬ (trimString q).length = 0 := by omega
    simp only [searchOp]
    rw [if_neg hne, if_pos h2]
    cases pr <;> simp
  · intro h
    have hne : ¬ (trimString q).length = 0 := by omega
    have hle : ¬ (trimString q).length ≤ 120 := by omega
    simp only [searchOp]
    rw [if_neg hne, if_neg hle]
    exact ⟨rfl, rfl⟩

/-- Witness for C5 on a five-character query and a 121-character query. -/
theorem search_length_validation_w :
    ((searchOp ("paris") ProviderResult.unavailable).2 = true
      ∧ (searchOp ("paris") ProviderResult.unavailable).1
          ≠ Except.error GeoError.InvalidInput)
    ∧ ((searchOp exampleLongQuery ProviderResult.unavailable).1
          = Except.error GeoError.InvalidInput
      ∧ (searchOp exampleLongQuery ProviderResult.unavailable).2 = false) :=
  ⟨(search_length_validation ("paris") ProviderResult.unavailable).1
      (by decide) (by decide),
   (search_length_validation exampleLongQuery ProviderResult.unavailable).2
      (by decide)⟩

/-- C6: a save from a manual form edit stores confidence exactly 0.90,
whatever address fields are present, whenever no cross-validation
mismatch penalty applies. -/
theorem user_form_fixed_confidence (sid : String) (inp : SaveInput)
    (revCC : Option String) (now : ℕ)
    (hsrc : inp.source = Source.user_form)
    (hpen : crossPenalty inp revCC = 0) :
    (saveRecord sid inp revCC now).confidence = 9/10 := by
  simp [saveRecord, baseConfidence, hsrc, hpen]

/-- Witness for C6 on a concrete form edit with no reverse lookup. -/
theorem user_form_fixed_confidence_w :
    (saveRecord ("s2") exampleUserFormInput none 0).confidence = 9/10 :=
  user_form_fixed_confidence ("s2") exampleUserFormInput none 0 rfl rfl

/-- C7: a save immediately followed by a get for the same storyId returns
a record whose lat, lon, city and country equal the saved values, and the
underlying put fully replaces any prior record except createdAt. -/
theorem save_get_roundtrip (store : PlaceStore) (sid : String)
    (inp : SaveInput) (revCC : Option String) (now : ℕ) :
    (∃ r, Get (SaveOp store sid inp revCC now) sid = some r
       ∧ r.lat = inp.lat ∧ r.lon = inp.lon ∧ r.city = inp.city
       ∧ r.country = inp.country)
    ∧ (∀ r old, store sid = some old →
         Get (Put store sid r) sid = some { r with created_at := old.created_at })
    ∧ (store sid = none → ∀ r, Get (Put store sid r) sid = some r) := by
  refine ⟨?_, ?_, ?_⟩
  · cases hstore : store sid with
    | none =>
        exact ⟨saveRecord sid inp revCC now,
          by simp [Get, SaveOp, Put, hstore], rfl, rfl, rfl, rfl⟩
    | some old =>
        exact ⟨{ saveRecord sid inp revCC now with created_at := old.created_at },
          by simp [Get, SaveOp, Put, hstore], rfl, rfl, rfl, rfl⟩
  · intro r old hold
    simp [Get, Put, hold]
  · intro hnone r
    simp [Get, Put, hnone]

/-- Witness for C7: overwriting the record stored under s1 keeps its
original createdAt and replaces everything else. -/
theorem save_get_roundtrip_w :
    Get (Put exampleStore ("s1") examplePlaceRec2) ("s1")
      = some { examplePlaceRec2 with created_at := examplePlaceRec.created_at } :=
  (save_get_roundtrip exampleStore ("s1") exampleSaveInput none 0).2.1
    examplePlaceRec2 examplePlaceRec (by simp [exampleStore])

/-- C8: a cache entry inserted at time T is treated as absent by any
lookup at a time at least T plus the TTL; the default TTL is 86400
seconds, 24 hours. -/
theorem cache_ttl_expiry {α : Type} (entries : List (CacheEntry α))
    (key : String) (v : α) (T now ttl : ℕ) (h : T + ttl ≤ now) :
    cacheGet (cachePut entries key v T) key now ttl = none
    ∧ CACHE_TTL = 86400 := by
  refine ⟨?_, rfl⟩
  have hfind : List.find? (fun e => e.key == key)
      ({ key := key, value := v, insertedAt := T } :: entries)
      = some { key := key, value := v, insertedAt := T } := by simp
  simp only [cacheGet, cachePut, hfind]
  rw [if_neg (by omega)]

/-- Witness for C8: an entry inserted at time 0 is absent at exactly the
default TTL. -/
theorem cache_ttl_expiry_w :
    cacheGet (cachePut ([] : List (CacheEntry (List PlaceCandidate)))
        ("k") [] 0) ("k") 86400 CACHE_TTL = none :=
  (cache_ttl_expiry [] ("k") [] 0 86400 CACHE_TTL (by decide)).1

/-- C9: out-of-range coordinates make the reverse operation fail with
InvalidInput and perform no network call. -/
theorem reverse_invalid_input (lat lon : ℚ)
    (pr : ProviderResult (Option RawPlace))
    (h : valid_coords lat lon = false) :
    reverseOp lat lon pr = (Except.error GeoError.InvalidInput, false) := by
  simp [reverseOp, h]

/-- Witness for C9 at the two inputs named by the claim. -/
theorem reverse_invalid_input_w :
    reverseOp 91 0 ProviderResult.unavailable
      = (Except.error GeoError.InvalidInput, false)
    ∧ reverseOp 0 181 ProviderResult.unavailable
      = (Except.error GeoError.InvalidInput, false) :=
  ⟨reverse_invalid_input 91 0 ProviderResult.unavailable (by decide),
   reverse_invalid_input 0 181 ProviderResult.unavailable (by decide)⟩

/-- C10: in the map-drag handler, a non-ok HTTP response leaves the
selected location entirely unchanged (the dragged coordinates are
discarded), while only the thrown-fetch path keeps the previous location
with the dragged coordinates written over it. -/
theorem marker_drag_error_paths (lat lon : ℚ) (prev : Option LocationData) :
    handleMarkerDrag lat lon ReverseFetch.httpNotOk prev = prev
    ∧ (∀ p : LocationData,
         handleMarkerDrag lat lon ReverseFetch.threw (some p)
           = some { p with lat := lat, lon := lon })
    ∧ handleMarkerDrag lat lon ReverseFetch.threw none
        = some { lat := lat, lon := lon, place_name := none, city := none,
                 admin := none, country := none, country_code := none } :=
  ⟨rfl, fun _ => rfl, rfl⟩

end LifeChronicles
